import Mathlib

/-!
Verification development for the brainzlab-js client telemetry SDK.

The definitions below are a shallow embedding of the transport core of the
SDK: the W3C trace-context module (src/utils/trace.ts), the configuration
and routing module (src/config.ts), and the transport buffer, flush and
delivery logic (src/transport.ts, exported through src/index.ts).

Modelling conventions:
- JavaScript strings manipulated character by character (the traceparent
  header) are embedded as `List Char`; configuration values and endpoint
  URLs are embedded as Lean `String`.
- JavaScript `undefined`/`null` optionality is `Option`; the JavaScript
  truthiness test on a string (which treats the empty string as false) is
  made explicit wherever the source relies on it (`||` fallbacks and
  `if (!x)` guards).
- `Math.random()` is embedded as an explicit draw parameter: a rational in
  [0,1) for the sampling comparison, and a stream of `Fin 16` draws for
  hexadecimal identifier generation.
- Asynchronous delivery outcomes are an oracle `fails : String → Bool`
  giving, per endpoint URL, whether the POST for that group rejects.
  Submissions that land while a flush is awaiting its deliveries are an
  explicit `concurrent` list.
- Thrown exceptions are `Except String`; functions that cannot throw are
  total.
-/

namespace BrainzLab

/-! ## Trace module (src/utils/trace.ts) -/

/-- Splitting a character list on the dash character, keeping empty
segments, as JavaScript `header.split("-")` does. -/
def splitOnDash : List Char → List (List Char)
  | [] => [[]]
  | c :: rest =>
    if c = '-' then [] :: splitOnDash rest
    else
      match splitOnDash rest with
      | [] => [[c]]
      | s :: ss => (c :: s) :: ss

/-- TraceContext record from src/utils/trace.ts. -/
structure TraceContext where
  traceId : List Char
  spanId : List Char
  parentSpanId : Option (List Char)
  sampled : Bool
deriving DecidableEq, Repr

/-- The generator alphabet of randomHex, the source's string constant. -/
def hexChars : List Char :=
  "0123456789abcdef".toList

theorem hexChars_length : hexChars.length = 16 := rfl

/-- Indexing into the generator alphabet; the source indexes with
`Math.floor(Math.random() * 16)`, always in range. -/
def hexChar (n : Fin 16) : Char :=
  hexChars.get (Fin.cast hexChars_length.symm n)

/-- randomHex from src/utils/trace.ts: a loop appending one alphabet
character per draw.  The stream `rand` gives the i-th draw. -/
def randomHex (rand : Nat → Fin 16) (length : Nat) : List Char :=
  (List.range length).map (fun i => hexChar (rand i))

/-- generateTraceId: 32 random hex characters. -/
def generateTraceId (rand : Nat → Fin 16) : List Char :=
  randomHex rand 32

/-- generateSpanId: 16 random hex characters. -/
def generateSpanId (rand : Nat → Fin 16) : List Char :=
  randomHex rand 16

/-- The seed record accepted by initTraceContext. -/
structure TraceSeed where
  traceId : Option (List Char)
  parentSpanId : Option (List Char)
  sampled : Option Bool
deriving DecidableEq, Repr

/-- initTraceContext from src/utils/trace.ts.  `config.traceId ||
generateTraceId()` regenerates when the seed id is absent or the empty
string (JavaScript truthiness); `sampled !== false` defaults to true. -/
def initTraceContext (randT randS : Nat → Fin 16) (config : TraceSeed) : TraceContext :=
  { traceId :=
      match config.traceId with
      | some t => if t = [] then generateTraceId randT else t
      | none => generateTraceId randT
    spanId := generateSpanId randS
    parentSpanId := config.parentSpanId
    sampled := config.sampled ≠ some false }

/-- createChildContext from src/utils/trace.ts: same traceId and sampled,
fresh spanId, parentSpanId set to the parent spanId. -/
def createChildContext (randS : Nat → Fin 16) : Option TraceContext → Option TraceContext
  | none => none
  | some current =>
    some { traceId := current.traceId
           spanId := generateSpanId randS
           parentSpanId := some current.spanId
           sampled := current.sampled }

/-- formatTraceparent from src/utils/trace.ts, with its optional explicit
argument falling back to the current context. -/
def formatTraceparent (ctx : Option TraceContext) (currentContext : Option TraceContext) :
    Option (List Char) :=
  match ctx.orElse (fun _ => currentContext) with
  | none => none
  | some context =>
    let version : List Char := ['0', '0']
    let flags : List Char := if context.sampled then ['0', '1'] else ['0', '0']
    some (version ++ '-' :: (context.traceId ++ '-' :: (context.spanId ++ '-' :: flags)))

/-- Lowercase hexadecimal digit, the character class of the generator
alphabet. -/
def isLowerHexChar (c : Char) : Bool :=
  c.isDigit || ('a' ≤ c && c ≤ 'f')

/-- Hexadecimal digit of either case: the character class of the source
regular expressions, which carry the case-insensitive flag. -/
def isHexDigitCI (c : Char) : Bool :=
  c.isDigit || ('a' ≤ c && c ≤ 'f') || ('A' ≤ c && c ≤ 'F')

/-- The anchored test of the source regular expressions: exactly `n`
hexadecimal characters, case-insensitively. -/
def hexTestCI (s : List Char) (n : Nat) : Bool :=
  s.length = n && s.all isHexDigitCI

/-- Numeric value of one hexadecimal digit of either case; the code
points 48, 97 and 65 are those of the digit zero and the letters a and
A. -/
def hexVal (c : Char) : Option Nat :=
  if c.isDigit then some (c.toNat - 48)
  else if 'a' ≤ c ∧ c ≤ 'f' then some (c.toNat - 97 + 10)
  else if 'A' ≤ c ∧ c ≤ 'F' then some (c.toNat - 65 + 10)
  else none

/-- Accumulating pass over leading hexadecimal digits. -/
def parseIntHexAux : List Char → Nat → Nat
  | [], acc => acc
  | c :: rest, acc =>
    match hexVal c with
    | some v => parseIntHexAux rest (acc * 16 + v)
    | none => acc

/-- JavaScript parseInt(s, 16) on a dash-free segment: the value of the
longest leading run of hexadecimal digits, or absence (NaN) when the first
character is not a hexadecimal digit.  The leading-whitespace, sign and 0x
handling of parseInt never applies to the segments produced by the dash
split in this module. -/
def parseIntHex (s : List Char) : Option Nat :=
  match s with
  | [] => none
  | c :: _ =>
    match hexVal c with
    | none => none
    | some _ => some (parseIntHexAux s 0)

/-- The flags computation of parseTraceparent: `(parseInt(flags, 16) &
0x01) === 1`, where the bitwise-and of NaN is 0. -/
def jsFlagsSampled (flags : List Char) : Bool :=
  match parseIntHex flags with
  | none => false
  | some n => decide (n % 2 = 1)

/-- The all-zero trace id rejected by the parser. -/
def zeros32 : List Char := List.replicate 32 '0'

/-- The all-zero span id rejected by the parser. -/
def zeros16 : List Char := List.replicate 16 '0'

/-- parseTraceparent from src/utils/trace.ts.  The source destructures
only the first four dash-separated segments after checking
`parts.length < 4`, validates the version, case-insensitive trace and span
ids and their non-zero requirement, and never throws (absence on any
violation). -/
def parseTraceparent (header : List Char) : Option TraceContext :=
  let parts := splitOnDash header
  if parts.length < 4 then none
  else
    match parts with
    | version :: traceId :: spanId :: flags :: _ =>
      if version ≠ ['0', '0'] then none
      else if hexTestCI traceId 32 = false then none
      else if traceId = zeros32 then none
      else if hexTestCI spanId 16 = false then none
      else if spanId = zeros16 then none
      else some { traceId := traceId, spanId := spanId, parentSpanId := none,
                  sampled := jsFlagsSampled flags }
    | _ => none

/-! ## Configuration module (src/config.ts) -/

/-- Per-product endpoint overrides from src/config.ts. -/
structure ProductEndpoints where
  errors : Option String
  performance : Option String
  network : Option String
  console : Option String
  custom : Option String
deriving DecidableEq, Repr

/-- Per-product API key overrides from src/config.ts. -/
structure ProductApiKeys where
  errors : Option String
  performance : Option String
  network : Option String
  console : Option String
  custom : Option String
deriving DecidableEq, Repr

/-- The configuration record consumed by the transport core.  The
observation-shim toggles and ignore lists of BrainzLabConfig are out of
scope of the transport core and are not embedded. -/
structure BrainzLabConfig where
  endpoints : Option ProductEndpoints
  apiKeys : Option ProductApiKeys
  endpoint : Option String
  apiKey : Option String
  projectId : Option String
  environment : Option String
  service : Option String
  release : Option String
  debug : Bool
  sampleRate : Option ℚ
  maxBufferSize : Option Nat
  flushInterval : Option Nat
deriving DecidableEq, Repr

/-- The event categories of the SDK. -/
inductive EventType
  | error
  | network
  | performance
  | console
  | custom
deriving DecidableEq, Repr

/-- The per-type endpoint field consulted by the switch in
getEndpointForType. -/
def productEndpoint (eps : ProductEndpoints) : EventType → Option String
  | EventType.error => eps.errors
  | EventType.performance => eps.performance
  | EventType.network => eps.network
  | EventType.console => eps.console
  | EventType.custom => eps.custom

/-- The per-type API key field consulted by the switch in
getApiKeyForType. -/
def productApiKey (ks : ProductApiKeys) : EventType → Option String
  | EventType.error => ks.errors
  | EventType.performance => ks.performance
  | EventType.network => ks.network
  | EventType.console => ks.console
  | EventType.custom => ks.custom

/-- JavaScript truthiness on an optional string: absent and empty strings
are false. -/
def truthyStr : Option String → Option String
  | some s => if s = "" then none else some s
  | none => none

/-- getEndpointForType from src/config.ts: a truthy product-specific
endpoint wins; otherwise a truthy legacy endpoint gets the fixed
`/api/v1/browser` suffix; otherwise absence. -/
def getEndpointForType (config : BrainzLabConfig) (t : EventType) : Option String :=
  let fromProducts : Option String :=
    match config.endpoints with
    | some eps => truthyStr (productEndpoint eps t)
    | none => none
  match fromProducts with
  | some e => some e
  | none =>
    match truthyStr config.endpoint with
    | some base => some (base ++ "/api/v1/browser")
    | none => none

/-- getApiKeyForType from src/config.ts: a truthy product-specific key
wins; otherwise `config.apiKey || null`. -/
def getApiKeyForType (config : BrainzLabConfig) (t : EventType) : Option String :=
  let fromProducts : Option String :=
    match config.apiKeys with
    | some ks => truthyStr (productApiKey ks t)
    | none => none
  match fromProducts with
  | some k => some k
  | none => truthyStr config.apiKey

/-- The exception message thrown by getConfig before configure. -/
def configErrorMsg : String :=
  "[BrainzLab] SDK not configured. Call BrainzLab.configure() first."

/-- getConfig from src/config.ts: throws when no configuration is set. -/
def getConfigE (globalConfig : Option BrainzLabConfig) : Except String BrainzLabConfig :=
  match globalConfig with
  | none => Except.error configErrorMsg
  | some c => Except.ok c

/-! ## Transport module (src/transport.ts) -/

/-- A buffered event.  The payload record is opaque to the transport and
embedded as an uninterpreted string. -/
structure QueuedEvent where
  id : String
  type : EventType
  timestamp : String
  url : String
  userAgent : String
  sessionId : String
  requestId : Option String
  data : String
deriving DecidableEq, Repr

/-- The ambient browser values stamped onto an event at submission time:
the fresh event id, the ISO timestamp, location and user agent. -/
structure Ambient where
  eventId : String
  timestamp : String
  url : String
  userAgent : String
deriving DecidableEq, Repr

/-- The sampling threshold of Transport.send: `config.sampleRate || 1.0`,
so an absent rate and, by JavaScript falsiness, a rate of exactly 0 both
fall back to 1. -/
def effectiveSampleRate (config : BrainzLabConfig) : ℚ :=
  match config.sampleRate with
  | none => 1
  | some r => if r = 0 then 1 else r

/-- The flush threshold of Transport.send: `config.maxBufferSize || 50`. -/
def effectiveMaxBufferSize (config : BrainzLabConfig) : Nat :=
  match config.maxBufferSize with
  | none => 50
  | some n => if n = 0 then 50 else n

/-- The timer period of setupFlushTimer: `config.flushInterval || 5000`. -/
def effectiveFlushInterval (config : BrainzLabConfig) : Nat :=
  match config.flushInterval with
  | none => 5000
  | some n => if n = 0 then 5000 else n

/-- Transport.send from src/transport.ts.  `draw` is the Math.random()
value of the sampling test, in [0,1).  Returns the new queue and whether
the buffer-full branch fired a (non-awaited) flush.  Performance events
whose draw exceeds the effective sample rate, and events whose type
resolves to no endpoint, return with the queue untouched. -/
def Transport.send (config : BrainzLabConfig) (amb : Ambient) (sessionId : String)
    (draw : ℚ) (queue : List QueuedEvent)
    (t : EventType) (data : String) (requestId : Option String) :
    List QueuedEvent × Bool :=
  if t = EventType.performance ∧ draw > effectiveSampleRate config then (queue, false)
  else
    match getEndpointForType config t with
    | none => (queue, false)
    | some _ =>
      let event : QueuedEvent :=
        { id := amb.eventId, type := t, timestamp := amb.timestamp, url := amb.url,
          userAgent := amb.userAgent, sessionId := sessionId,
          requestId := requestId, data := data }
      let q := queue ++ [event]
      (q, decide (q.length ≥ effectiveMaxBufferSize config))

/-- The per-event destination resolution performed inside flush:
`getEndpointForType(event.type)` and `getApiKeyForType(event.type) ||
config.apiKey`, with the event skipped when either is falsy.  Returns the
endpoint URL the event is grouped under, or absence when the event is
skipped. -/
def destOf (config : BrainzLabConfig) (e : QueuedEvent) : Option String :=
  let endpoint := getEndpointForType config e.type
  let apiKey :=
    match getApiKeyForType config e.type with
    | some k => some k
    | none => config.apiKey
  match truthyStr endpoint, truthyStr apiKey with
  | some ep, some _ => some ep
  | _, _ => none

/-- Insertion into the endpoint-keyed grouping object: events append to
an existing key in place, a new key is appended at the end, matching the
insertion order that Object.entries later iterates (endpoint URLs are
never integer-like keys). -/
def addToGroups (groups : List (String × List QueuedEvent)) (ep : String)
    (e : QueuedEvent) : List (String × List QueuedEvent) :=
  match groups with
  | [] => [(ep, [e])]
  | (k, es) :: rest =>
    if k = ep then (k, es ++ [e]) :: rest
    else (k, es) :: addToGroups rest ep e

/-- The grouping loop of Transport.flush over the snapshot, from an
accumulator.  Skipped events (no truthy endpoint or API key) only feed a
debug log in the source and are dropped here. -/
def groupEventsFrom (config : BrainzLabConfig)
    (groups : List (String × List QueuedEvent)) :
    List QueuedEvent → List (String × List QueuedEvent)
  | [] => groups
  | e :: rest =>
    match destOf config e with
    | none => groupEventsFrom config groups rest
    | some ep => groupEventsFrom config (addToGroups groups ep e) rest

/-- The grouping loop of Transport.flush, starting from the empty
object. -/
def groupEvents (config : BrainzLabConfig) (events : List QueuedEvent) :
    List (String × List QueuedEvent) :=
  groupEventsFrom config [] events

/-- The requeue computation of Transport.flush: walking the settled
results in group order, the events of every rejected endpoint group are
pushed, in group order. -/
def failedEventsOf (fails : String → Bool) :
    List (String × List QueuedEvent) → List QueuedEvent
  | [] => []
  | g :: rest =>
    if fails g.1 then g.2 ++ failedEventsOf fails rest
    else failedEventsOf fails rest

/-- The body of Transport.flush after the empty-queue early return: the
snapshot `queue` is grouped by destination, one delivery per endpoint
group settles independently per the `fails` oracle, and the failed
groups' events are prepended to the live buffer, which meanwhile holds
the `concurrent` submissions that arrived during the await. -/
def Transport.flushQueue (config : BrainzLabConfig) (fails : String → Bool)
    (queue concurrent : List QueuedEvent) : List QueuedEvent :=
  failedEventsOf fails (groupEvents config queue) ++ concurrent

/-- The delivery context serialized into every request body. -/
structure DeliveryContext where
  projectId : Option String
  environment : Option String
  service : Option String
  release : Option String
deriving DecidableEq, Repr

/-- The outbound fetch request built by Transport.sendToEndpoint. -/
structure HttpRequest where
  method : String
  url : String
  headers : List (String × String)
  bodyEvents : List QueuedEvent
  bodyContext : DeliveryContext
  keepalive : Bool
deriving DecidableEq, Repr

/-- The batch credential resolution of Transport.sendToEndpoint:
`getApiKeyForType(events[0].type) || config.apiKey`, where the event type
defaults to custom for an empty group. -/
def batchApiKey (config : BrainzLabConfig) (t : EventType) : Option String :=
  match getApiKeyForType config t with
  | some k => some k
  | none => config.apiKey

/-- Transport.sendToEndpoint from src/transport.ts: resolves the batch
credential from the first event of the group, skips (builds no request)
when the credential is falsy, and otherwise issues a keepalive POST with
the JSON content type, bearer authorization and session header, carrying
the whole group and the delivery context.  The HTTP response check
(`throw` on a non-ok status) is the delivery outcome consumed by flush
through the `fails` oracle. -/
def Transport.sendToEndpoint (config : BrainzLabConfig) (sessionId : String)
    (endpoint : String) (events : List QueuedEvent) : Option HttpRequest :=
  let eventType := (events.head?.map QueuedEvent.type).getD EventType.custom
  match truthyStr (batchApiKey config eventType) with
  | none => none
  | some apiKey =>
    some { method := "POST"
           url := endpoint
           headers :=
             [("Content-Type", "application/json"),
              ("Authorization", "Bearer " ++ apiKey),
              ("X-BrainzLab-Session", sessionId)]
           bodyEvents := events
           bodyContext :=
             { projectId := config.projectId, environment := config.environment,
               service := config.service, release := config.release }
           keepalive := true }

/-! ## Module-level singleton and entry points (src/transport.ts,
src/config.ts) -/

/-- The state of a constructed Transport instance.  The recurring timer
is represented by its resolved period. -/
structure TransportState where
  queue : List QueuedEvent
  sessionId : String
  flushIntervalMs : Nat
deriving DecidableEq, Repr

/-- The module-level mutable state: the configured global config and the
lazily constructed transport singleton. -/
structure SdkState where
  globalConfig : Option BrainzLabConfig
  transportInstance : Option TransportState
deriving DecidableEq, Repr

/-- The Transport constructor: generates the session id and sets up the
flush timer, which reads the configuration and therefore throws when the
SDK is not configured. -/
def newTransport (globalConfig : Option BrainzLabConfig) (sessionId : String) :
    Except String TransportState := do
  let config ← getConfigE globalConfig
  pure { queue := [], sessionId := sessionId,
         flushIntervalMs := effectiveFlushInterval config }

/-- getTransport from src/transport.ts: constructs the singleton on first
use; a throwing constructor leaves the singleton absent. -/
def getTransport (s : SdkState) (freshSessionId : String) :
    Except String (TransportState × SdkState) :=
  match s.transportInstance with
  | some t => Except.ok (t, s)
  | none => do
    let t ← newTransport s.globalConfig freshSessionId
    pure (t, { s with transportInstance := some t })

/-- sendEvent from src/transport.ts: resolves the singleton, then runs
Transport.send on its queue.  The buffer-full flush it may fire is not
awaited and is left to the flush entry point. -/
def sendEventTop (s : SdkState) (freshSessionId : String) (amb : Ambient) (draw : ℚ)
    (t : EventType) (data : String) (requestId : Option String) :
    Except String SdkState := do
  let (tr, s1) ← getTransport s freshSessionId
  let config ← getConfigE s1.globalConfig
  let (q, _triggered) := Transport.send config amb tr.sessionId draw tr.queue t data requestId
  pure { s1 with transportInstance := some { tr with queue := q } }

/-- flushEvents from src/transport.ts: resolves the singleton and runs
flush, whose empty-queue early return precedes the getConfig call. -/
def flushEventsTop (s : SdkState) (freshSessionId : String) (fails : String → Bool)
    (concurrent : List QueuedEvent) : Except String SdkState := do
  let (tr, s1) ← getTransport s freshSessionId
  if tr.queue = [] then
    pure s1
  else do
    let config ← getConfigE s1.globalConfig
    pure { s1 with
           transportInstance :=
             some { tr with queue := Transport.flushQueue config fails tr.queue concurrent } }

/-! ## Concrete fixtures used by witnesses and counterexamples -/

/-- Ambient browser values for concrete runs. -/
def ambC : Ambient :=
  { eventId := "evt_1", timestamp := "2024-01-01T00:00:00.000Z",
    url := "https://app.example/page", userAgent := "ua" }

/-- The legacy single-endpoint configuration of the routing-fallback
property. -/
def cfgLegacy : BrainzLabConfig :=
  { endpoints := none, apiKeys := none, endpoint := some "https://x", apiKey := some "k",
    projectId := none, environment := none, service := none, release := none,
    debug := false, sampleRate := none, maxBufferSize := none, flushInterval := none }

/-- A configuration with no destination at all. -/
def cfgNone : BrainzLabConfig :=
  { endpoints := none, apiKeys := none, endpoint := none, apiKey := none,
    projectId := none, environment := none, service := none, release := none,
    debug := false, sampleRate := none, maxBufferSize := none, flushInterval := none }

/-- The legacy configuration with a sample rate of exactly zero. -/
def cfgRate0 : BrainzLabConfig :=
  { cfgLegacy with sampleRate := some 0 }

/-- A buffered event of a given id and type with fixed ambient fields. -/
def mkEvt (i : String) (t : EventType) : QueuedEvent :=
  { id := i, type := t, timestamp := "ts", url := "u", userAgent := "ua",
    sessionId := "s", requestId := none, data := "d" }

/-- The bucket a grouping object associates to an endpoint key (empty
when the key is absent); used to state the per-endpoint properties of
flush. -/
def lookupGroup : List (String × List QueuedEvent) → String → List QueuedEvent
  | [], _ => []
  | g :: rest, ep => if g.1 = ep then g.2 else lookupGroup rest ep

/-- Well-formedness of a grouping object: endpoint keys are distinct and
every bucketed event resolves to its bucket's endpoint. -/
def GroupsWF (config : BrainzLabConfig) (gs : List (String × List QueuedEvent)) : Prop :=
  (gs.map Prod.fst).Nodup ∧ ∀ g ∈ gs, ∀ e ∈ g.2, destOf config e = some g.1

/-- A routing table with three distinct destinations: error events to
https://a, console events to https://b, custom events to https://c, all
under the legacy credential. -/
def cfgX : BrainzLabConfig :=
  { endpoints := some { errors := some "https://a", performance := none, network := none,
                        console := some "https://b", custom := some "https://c" },
    apiKeys := none, endpoint := none, apiKey := some "k",
    projectId := none, environment := none, service := none, release := none,
    debug := false, sampleRate := none, maxBufferSize := none, flushInterval := none }

/-- A delivery outcome where only https://c succeeds. -/
def failsX : String → Bool := fun ep => decide (ep ≠ "https://c")

/-- A configuration with distinct per-product credentials for the error
and console categories. -/
def cfgKeys : BrainzLabConfig :=
  { endpoints := none,
    apiKeys := some { errors := some "ke", performance := none, network := none,
                      console := some "kc", custom := none },
    endpoint := some "https://x", apiKey := some "k",
    projectId := none, environment := none, service := none, release := none,
    debug := false, sampleRate := none, maxBufferSize := none, flushInterval := none }

/-! ## Claim theorems -/

theorem truthyStr_some_ne {s : String} (h : s ≠ "") : truthyStr (some s) = some s := by
  simp [truthyStr, h]

theorem truthyStr_some_empty : truthyStr (some "") = none := rfl

theorem truthyStr_none_eq : truthyStr none = none := rfl

/-- C8: endpointFor returns the category-specific endpoint when one is
configured (present and non-empty); otherwise, when a fallback endpoint is
configured, the fallback with the fixed suffix /api/v1/browser appended;
otherwise absence.  With only the legacy endpoint https://x configured,
the error category resolves to https://x/api/v1/browser. -/
theorem getEndpointForType_spec :
    ∀ (config : BrainzLabConfig) (t : EventType),
      (∀ eps e, config.endpoints = some eps → productEndpoint eps t = some e → e ≠ "" →
        getEndpointForType config t = some e)
      ∧ (config.endpoints.bind (fun eps => truthyStr (productEndpoint eps t)) = none →
          ∀ base, config.endpoint = some base → base ≠ "" →
            getEndpointForType config t = some (base ++ "/api/v1/browser"))
      ∧ (config.endpoints.bind (fun eps => truthyStr (productEndpoint eps t)) = none →
          truthyStr config.endpoint = none →
          getEndpointForType config t = none)
      ∧ getEndpointForType cfgLegacy EventType.error = some "https://x/api/v1/browser" := by
  intro config t
  refine ⟨?_, ?_, ?_, by decide⟩
  · intro eps e heps he hne
    simp only [getEndpointForType, heps, he, truthyStr_some_ne hne]
  · intro hnone base hbase hne
    cases heps : config.endpoints with
    | none =>
      simp only [getEndpointForType, heps, hbase, truthyStr_some_ne hne]
    | some eps =>
      rw [heps] at hnone
      simp only [Option.some_bind] at hnone
      simp only [getEndpointForType, heps, hnone, hbase, truthyStr_some_ne hne]
  · intro hnone hend
    cases heps : config.endpoints with
    | none => simp only [getEndpointForType, heps, hend]
    | some eps =>
      rw [heps] at hnone
      simp only [Option.some_bind] at hnone
      simp only [getEndpointForType, heps, hnone, hend]

/-- Witness for C8: the legacy-fallback branch applied at the concrete
legacy configuration. -/
theorem getEndpointForType_spec_witness :
    getEndpointForType cfgLegacy EventType.error = some ("https://x" ++ "/api/v1/browser") :=
  (getEndpointForType_spec cfgLegacy EventType.error).2.1 (by decide) "https://x"
    (by decide) (by decide)

/-- C7: a submit call whose category resolves to no endpoint leaves the
buffer untouched and fires no flush, and any number of submissions of
such a category starting from the empty buffer leave it empty. -/
theorem send_drop_undeliverable :
    ∀ (config : BrainzLabConfig) (t : EventType),
      getEndpointForType config t = none →
      (∀ amb sessionId draw queue data requestId,
          Transport.send config amb sessionId draw queue t data requestId = (queue, false))
      ∧ ∀ (subs : List (Ambient × ℚ × String × Option String)) (sessionId : String),
          subs.foldl
            (fun q sub =>
              (Transport.send config sub.1 sessionId sub.2.1 q t sub.2.2.1 sub.2.2.2).1)
            [] = [] := by
  intro config t hnone
  have hsend : ∀ amb sessionId draw queue data requestId,
      Transport.send config amb sessionId draw queue t data requestId = (queue, false) := by
    intro amb sessionId draw queue data requestId
    unfold Transport.send
    split
    · rfl
    · rw [hnone]
  refine ⟨hsend, ?_⟩
  intro subs sessionId
  suffices h : ∀ q, subs.foldl
      (fun q sub =>
        (Transport.send config sub.1 sessionId sub.2.1 q t sub.2.2.1 sub.2.2.2).1)
      q = q from h []
  induction subs with
  | nil => intro q; rfl
  | cons sub rest ih =>
    intro q
    rw [List.foldl_cons, hsend sub.1 sessionId sub.2.1 q sub.2.2.1 sub.2.2.2]
    exact ih q

/-- Witness for C7: two submissions of the custom category against the
destination-free configuration leave the buffer empty. -/
theorem send_drop_undeliverable_witness :
    [((ambC, (0 : ℚ), "p1", (none : Option String))),
     ((ambC, (1/2 : ℚ), "p2", (none : Option String)))].foldl
      (fun q sub =>
        (Transport.send cfgNone sub.1 "sess" sub.2.1 q EventType.custom
          sub.2.2.1 sub.2.2.2).1)
      [] = [] :=
  (send_drop_undeliverable cfgNone EventType.custom (by decide)).2
    [(ambC, 0, "p1", none), (ambC, 1/2, "p2", none)] "sess"

/-- C2 (code bug): with the sample rate configured as exactly 0.0, the
expression `config.sampleRate || 1.0` evaluates to 1.0 because 0 is falsy
in JavaScript, so every performance-category event whose draw lies in
[0,1) is admitted to the buffer, while the claim and the spec require
that none ever reach it. -/
theorem send_sampleRate_zero_admits_all :
    ∀ (draw : ℚ) (amb : Ambient) (sessionId data : String) (requestId : Option String)
      (queue : List QueuedEvent),
      0 ≤ draw → draw < 1 →
      (Transport.send cfgRate0 amb sessionId draw queue EventType.performance data
          requestId).1.length = queue.length + 1 := by
  intro draw amb sessionId data requestId queue _h0 h1
  have hrate : effectiveSampleRate cfgRate0 = 1 := by decide
  have hcond : ¬ (EventType.performance = EventType.performance ∧
      draw > effectiveSampleRate cfgRate0) := by
    rw [hrate]
    rintro ⟨-, hgt⟩
    exact absurd hgt (not_lt.mpr h1.le)
  unfold Transport.send
  rw [if_neg hcond]
  have hep : getEndpointForType cfgRate0 EventType.performance =
      some "https://x/api/v1/browser" := by decide
  rw [hep]
  simp

/-- Witness for C2: a concrete performance event with draw 1/2 is
enqueued despite the zero sample rate. -/
theorem send_sampleRate_zero_admits_all_witness :
    (Transport.send cfgRate0 ambC "sess" (1/2) [] EventType.performance "payload"
        none).1.length = 0 + 1 :=
  send_sampleRate_zero_admits_all (1/2) ambC "sess" "payload" none [] (by norm_num)
    (by norm_num)

/-- C10: before configure has been called (no global configuration, hence
also no constructed transport singleton, since the constructor itself
reads the configuration), both sendEvent and flushEvents throw the
getConfig error instead of silently dropping. -/
theorem unconfigured_calls_throw :
    ∀ (s : SdkState) (sid : String) (amb : Ambient) (draw : ℚ) (t : EventType)
      (data : String) (requestId : Option String) (fails : String → Bool)
      (concurrent : List QueuedEvent),
      s.globalConfig = none → s.transportInstance = none →
      sendEventTop s sid amb draw t data requestId = Except.error configErrorMsg ∧
      flushEventsTop s sid fails concurrent = Except.error configErrorMsg := by
  intro s sid amb draw t data requestId fails concurrent hcfg hinst
  have hget : getTransport s sid = Except.error configErrorMsg := by
    simp [getTransport, hinst, newTransport, hcfg, getConfigE, Except.bind]
  constructor
  · rw [sendEventTop, hget]
    rfl
  · rw [flushEventsTop, hget]
    rfl

/-- Witness for C10: both entry points throw at the pristine initial
state. -/
theorem unconfigured_calls_throw_witness :
    sendEventTop ⟨none, none⟩ "sess" ambC 0 EventType.error "payload" none =
        Except.error configErrorMsg ∧
      flushEventsTop ⟨none, none⟩ "sess" (fun _ => false) [] =
        Except.error configErrorMsg :=
  unconfigured_calls_throw ⟨none, none⟩ "sess" ambC 0 EventType.error "payload" none
    (fun _ => false) [] rfl rfl

/-- C6 counterexample: the session header built by sendToEndpoint is
named X-BrainzLab-Session; no X-Session-Id header is present on the
concrete request. -/
theorem sendToEndpoint_header_counterexample :
    ((Transport.sendToEndpoint cfgLegacy "sess" "https://x/api/v1/browser"
        [mkEvt "1" EventType.error]).map (fun r => r.headers.map Prod.fst)) =
      some ["Content-Type", "Authorization", "X-BrainzLab-Session"] ∧
    "X-Session-Id" ∉ ["Content-Type", "Authorization", "X-BrainzLab-Session"] := by
  decide

/-- C6 (amended): the per-destination delivery is a keepalive POST to the
resolved endpoint with headers Content-Type: application/json,
Authorization: Bearer credential and X-BrainzLab-Session: sessionId (not
X-Session-Id), with body events plus the projectId, environment, service
and release context. -/
theorem sendToEndpoint_request_shape :
    ∀ (config : BrainzLabConfig) (sessionId endpoint : String) (e : QueuedEvent)
      (rest : List QueuedEvent) (key : String),
      batchApiKey config e.type = some key → key ≠ "" →
      Transport.sendToEndpoint config sessionId endpoint (e :: rest) =
        some { method := "POST", url := endpoint,
               headers := [("Content-Type", "application/json"),
                           ("Authorization", "Bearer " ++ key),
                           ("X-BrainzLab-Session", sessionId)],
               bodyEvents := e :: rest,
               bodyContext := { projectId := config.projectId,
                                environment := config.environment,
                                service := config.service,
                                release := config.release },
               keepalive := true } := by
  intro config sessionId endpoint e rest key hkey hne
  simp only [Transport.sendToEndpoint, List.head?_cons, Option.map_some', Option.getD_some,
    hkey, truthyStr_some_ne hne]

/-- Witness for C6: the concrete request of one error event under the
legacy credential. -/
theorem sendToEndpoint_request_shape_witness :
    Transport.sendToEndpoint cfgLegacy "sess" "https://x/api/v1/browser"
        [mkEvt "1" EventType.error] =
      some { method := "POST", url := "https://x/api/v1/browser",
             headers := [("Content-Type", "application/json"),
                         ("Authorization", "Bearer " ++ "k"),
                         ("X-BrainzLab-Session", "sess")],
             bodyEvents := [mkEvt "1" EventType.error],
             bodyContext := { projectId := none, environment := none,
                              service := none, release := none },
             keepalive := true } :=
  sendToEndpoint_request_shape cfgLegacy "sess" "https://x/api/v1/browser"
    (mkEvt "1" EventType.error) [] "k" (by decide) (by decide)

/-- C9: the credential authenticating a per-endpoint group is resolved
from the category of the first event of the group alone (with the legacy
fallback): any tail yields the same headers, even when the tail events
have different credentials configured for their categories. -/
theorem sendToEndpoint_first_event_credential :
    ∀ (config : BrainzLabConfig) (sessionId endpoint : String) (e : QueuedEvent)
      (rest rest2 : List QueuedEvent) (key : String),
      batchApiKey config e.type = some key → key ≠ "" →
      ∃ req req2,
        Transport.sendToEndpoint config sessionId endpoint (e :: rest) = some req ∧
        Transport.sendToEndpoint config sessionId endpoint (e :: rest2) = some req2 ∧
        ("Authorization", "Bearer " ++ key) ∈ req.headers ∧
        req.headers = req2.headers := by
  intro config sessionId endpoint e rest rest2 key hkey hne
  have hreq : ∀ (tail : List QueuedEvent),
      Transport.sendToEndpoint config sessionId endpoint (e :: tail) =
        some { method := "POST", url := endpoint,
               headers := [("Content-Type", "application/json"),
                           ("Authorization", "Bearer " ++ key),
                           ("X-BrainzLab-Session", sessionId)],
               bodyEvents := e :: tail,
               bodyContext := { projectId := config.projectId,
                                environment := config.environment,
                                service := config.service,
                                release := config.release },
               keepalive := true } := by
    intro tail
    simp only [Transport.sendToEndpoint, List.head?_cons, Option.map_some', Option.getD_some,
      hkey, truthyStr_some_ne hne]
  exact ⟨_, _, hreq rest, hreq rest2, by simp, rfl⟩

/-- Witness for C9: a group led by an error event with a console event in
its tail is authenticated with the error credential ke, although the
console category has credential kc configured. -/
theorem sendToEndpoint_first_event_credential_witness :
    ∃ req req2,
      Transport.sendToEndpoint cfgKeys "sess" "https://x/api/v1/browser"
          [mkEvt "1" EventType.error, mkEvt "2" EventType.console] = some req ∧
      Transport.sendToEndpoint cfgKeys "sess" "https://x/api/v1/browser"
          [mkEvt "1" EventType.error] = some req2 ∧
      ("Authorization", "Bearer " ++ "ke") ∈ req.headers ∧
      req.headers = req2.headers :=
  sendToEndpoint_first_event_credential cfgKeys "sess" "https://x/api/v1/browser"
    (mkEvt "1" EventType.error) [mkEvt "2" EventType.console] [] "ke" (by decide) (by decide)

/-- C4 counterexample: nothing regenerates an all-zero identifier; when
every random draw is zero, initTraceContext installs the all-zero trace
and span ids. -/
theorem initTraceContext_all_zero_counterexample :
    (initTraceContext (fun _ => 0) (fun _ => 0)
        { traceId := none, parentSpanId := none, sampled := none }).traceId = zeros32 ∧
    (initTraceContext (fun _ => 0) (fun _ => 0)
        { traceId := none, parentSpanId := none, sampled := none }).spanId = zeros16 := by
  decide

/-- C4 (amended): generated identifiers are always lowercase hexadecimal
strings of the documented length, but no regeneration happens: the
generated identifier is the all-zero string exactly when every draw of
its random stream is zero, and initTraceContext installs the generated
identifiers directly. -/
theorem randomHex_no_regeneration :
    ∀ (rand randS : Nat → Fin 16) (n : Nat) (cfg : TraceSeed),
      (randomHex rand n).length = n
      ∧ (randomHex rand n).all isLowerHexChar = true
      ∧ (randomHex rand n = List.replicate n '0' ↔ ∀ i < n, rand i = 0)
      ∧ (cfg.traceId = none → (initTraceContext rand randS cfg).traceId = randomHex rand 32)
      ∧ (initTraceContext rand randS cfg).spanId = randomHex randS 16 := by
  intro rand randS n cfg
  have hlower : ∀ v : Fin 16, isLowerHexChar (hexChar v) = true := by decide
  have hzero : ∀ v : Fin 16, hexChar v = '0' ↔ v = 0 := by decide
  refine ⟨?_, ?_, ?_, ?_, ?_⟩
  · simp [randomHex]
  · simp only [randomHex, List.all_eq_true, List.mem_map, List.mem_range]
    rintro c ⟨i, -, rfl⟩
    exact hlower (rand i)
  · rw [randomHex, List.eq_replicate_iff]
    simp only [List.length_map, List.length_range, true_and, List.mem_map, List.mem_range]
    constructor
    · intro h i hi
      exact (hzero (rand i)).mp (h (hexChar (rand i)) ⟨i, hi, rfl⟩)
    · rintro h c ⟨i, hi, rfl⟩
      exact (hzero (rand i)).mpr (h i hi)
  · intro hnone
    simp [initTraceContext, hnone, generateTraceId]
  · simp [initTraceContext, generateSpanId]

/-- Witness for C4 (amended): with a constant nonzero draw stream the
installed trace id is the generated one. -/
theorem randomHex_no_regeneration_witness :
    (initTraceContext (fun _ => (1 : Fin 16)) (fun _ => (1 : Fin 16))
        { traceId := none, parentSpanId := none, sampled := none }).traceId =
      randomHex (fun _ => (1 : Fin 16)) 32 :=
  (randomHex_no_regeneration (fun _ => 1) (fun _ => 1) 32
    { traceId := none, parentSpanId := none, sampled := none }).2.2.2.1 rfl

theorem ne_dash_of_lowerHex {c : Char} (h : isLowerHexChar c = true) : c ≠ '-' := by
  intro hc
  subst hc
  exact absurd h (by decide)

theorem hexCI_of_lowerHex {c : Char} (h : isLowerHexChar c = true) : isHexDigitCI c = true := by
  simp only [isLowerHexChar, Bool.or_eq_true] at h
  simp only [isHexDigitCI, Bool.or_eq_true]
  tauto

theorem allCI_of_allLower {l : List Char} (h : l.all isLowerHexChar = true) :
    l.all isHexDigitCI = true := by
  simp only [List.all_eq_true] at h ⊢
  intro c hc
  exact hexCI_of_lowerHex (h c hc)

theorem splitOnDash_append_nodash :
    ∀ (a b : List Char), (∀ c ∈ a, c ≠ '-') →
      splitOnDash (a ++ '-' :: b) = a :: splitOnDash b := by
  intro a
  induction a with
  | nil =>
    intro b _
    simp [splitOnDash]
  | cons c a ih =>
    intro b h
    have hc : c ≠ '-' := h c (List.mem_cons_self c a)
    have ha : ∀ x ∈ a, x ≠ '-' := fun x hx => h x (List.mem_cons_of_mem c hx)
    simp only [List.cons_append, splitOnDash, if_neg hc, List.append_eq]
    rw [ih b ha]

/-- C5: for a valid context (trace id 32 non-zero lowercase hex chars,
span id 16 non-zero lowercase hex chars), parsing the formatted
traceparent header recovers the same trace id, span id and sampled flag,
with parentSpanId left unpopulated. -/
theorem traceparent_roundtrip :
    ∀ (tid sid : List Char) (pid : Option (List Char)) (sampled : Bool)
      (cur : Option TraceContext),
      tid.length = 32 → tid.all isLowerHexChar = true → tid ≠ zeros32 →
      sid.length = 16 → sid.all isLowerHexChar = true → sid ≠ zeros16 →
      ∃ s,
        formatTraceparent
            (some { traceId := tid, spanId := sid, parentSpanId := pid,
                    sampled := sampled }) cur = some s ∧
        parseTraceparent s =
          some { traceId := tid, spanId := sid, parentSpanId := none,
                 sampled := sampled } := by
  intro tid sid pid sampled cur htl hta htz hsl hsa hsz
  have hndt : ∀ c ∈ tid, c ≠ '-' := by
    intro c hc
    exact ne_dash_of_lowerHex (List.all_eq_true.mp hta c hc)
  have hnds : ∀ c ∈ sid, c ≠ '-' := by
    intro c hc
    exact ne_dash_of_lowerHex (List.all_eq_true.mp hsa c hc)
  have hndv : ∀ c ∈ (['0', '0'] : List Char), c ≠ '-' := by decide
  have htest_t : hexTestCI tid 32 = true := by
    simp [hexTestCI, htl, allCI_of_allLower hta]
  have htest_s : hexTestCI sid 16 = true := by
    simp [hexTestCI, hsl, allCI_of_allLower hsa]
  cases sampled with
  | true =>
    refine ⟨['0', '0'] ++ '-' :: (tid ++ '-' :: (sid ++ '-' :: ['0', '1'])), rfl, ?_⟩
    have hflag : splitOnDash ['0', '1'] = [['0', '1']] := by decide
    have hsplit :
        splitOnDash
          (['0', '0'] ++ '-' :: (tid ++ '-' :: (sid ++ '-' :: ['0', '1']))) =
          [['0', '0'], tid, sid, ['0', '1']] := by
      rw [splitOnDash_append_nodash _ _ hndv, splitOnDash_append_nodash _ _ hndt,
        splitOnDash_append_nodash _ _ hnds, hflag]
    simp only [parseTraceparent, hsplit]
    simp only [List.length_cons, List.length_nil]
    rw [if_neg (by omega)]
    rw [if_neg (by simp), if_neg (by simp [htest_t]), if_neg htz,
      if_neg (by simp [htest_s]), if_neg hsz]
    have hfl : jsFlagsSampled ['0', '1'] = true := by decide
    rw [hfl]
  | false =>
    refine ⟨['0', '0'] ++ '-' :: (tid ++ '-' :: (sid ++ '-' :: ['0', '0'])), rfl, ?_⟩
    have hflag : splitOnDash ['0', '0'] = [['0', '0']] := by decide
    have hsplit :
        splitOnDash
          (['0', '0'] ++ '-' :: (tid ++ '-' :: (sid ++ '-' :: ['0', '0']))) =
          [['0', '0'], tid, sid, ['0', '0']] := by
      rw [splitOnDash_append_nodash _ _ hndv, splitOnDash_append_nodash _ _ hndt,
        splitOnDash_append_nodash _ _ hnds, hflag]
    simp only [parseTraceparent, hsplit]
    simp only [List.length_cons, List.length_nil]
    rw [if_neg (by omega)]
    rw [if_neg (by simp), if_neg (by simp [htest_t]), if_neg htz,
      if_neg (by simp [htest_s]), if_neg hsz]
    have hfl : jsFlagsSampled ['0', '0'] = false := by decide
    rw [hfl]

/-- Witness for C5: the round trip at a concrete all-a context. -/
theorem traceparent_roundtrip_witness :
    ∃ s,
      formatTraceparent
          (some { traceId := List.replicate 32 'a', spanId := List.replicate 16 'a',
                  parentSpanId := none, sampled := true }) none = some s ∧
      parseTraceparent s =
        some { traceId := List.replicate 32 'a', spanId := List.replicate 16 'a',
               parentSpanId := none, sampled := true } :=
  traceparent_roundtrip (List.replicate 32 'a') (List.replicate 16 'a') none true none
    (by decide) (by decide) (by decide) (by decide) (by decide) (by decide)

theorem lookupGroup_addToGroups_self (gs : List (String × List QueuedEvent)) (ep : String)
    (e : QueuedEvent) :
    lookupGroup (addToGroups gs ep e) ep = lookupGroup gs ep ++ [e] := by
  induction gs with
  | nil => simp [addToGroups, lookupGroup]
  | cons g rest ih =>
    obtain ⟨k, es⟩ := g
    by_cases hk : k = ep
    · subst hk
      simp [addToGroups, lookupGroup]
    · simp only [addToGroups, if_neg hk, lookupGroup]
      exact ih

theorem lookupGroup_addToGroups_ne (gs : List (String × List QueuedEvent)) (ep0 ep : String)
    (e : QueuedEvent) (h : ep ≠ ep0) :
    lookupGroup (addToGroups gs ep0 e) ep = lookupGroup gs ep := by
  induction gs with
  | nil => simp [addToGroups, lookupGroup, Ne.symm h]
  | cons g rest ih =>
    obtain ⟨k, es⟩ := g
    by_cases hk : k = ep0
    · subst hk
      simp [addToGroups, lookupGroup, Ne.symm h]
    · simp only [addToGroups, if_neg hk, lookupGroup]
      rw [ih]

theorem lookupGroup_groupEventsFrom (config : BrainzLabConfig) :
    ∀ (events : List QueuedEvent) (gs : List (String × List QueuedEvent)) (ep : String),
      lookupGroup (groupEventsFrom config gs events) ep =
        lookupGroup gs ep ++
          events.filter (fun e => decide (destOf config e = some ep)) := by
  intro events
  induction events with
  | nil =>
    intro gs ep
    simp [groupEventsFrom]
  | cons e rest ih =>
    intro gs ep
    cases hd : destOf config e with
    | none =>
      simp only [groupEventsFrom, hd]
      rw [ih, List.filter_cons]
      simp [hd]
    | some ep0 =>
      simp only [groupEventsFrom, hd]
      rw [ih, List.filter_cons]
      by_cases he : ep0 = ep
      · subst he
        rw [lookupGroup_addToGroups_self]
        simp [hd]
      · rw [lookupGroup_addToGroups_ne gs ep0 ep e (Ne.symm he)]
        simp [hd, he]

theorem keys_addToGroups (gs : List (String × List QueuedEvent)) (ep : String)
    (e : QueuedEvent) :
    (addToGroups gs ep e).map Prod.fst =
      if ep ∈ gs.map Prod.fst then gs.map Prod.fst else gs.map Prod.fst ++ [ep] := by
  induction gs with
  | nil => simp [addToGroups]
  | cons g rest ih =>
    obtain ⟨k, es⟩ := g
    by_cases hk : k = ep
    · subst hk
      simp [addToGroups]
    · simp only [addToGroups, if_neg hk, List.map_cons, ih]
      by_cases hm : ep ∈ rest.map Prod.fst
      · simp [hm]
      · simp [hm, Ne.symm hk]

theorem groupsWF_addToGroups (config : BrainzLabConfig) (ep : String) (e : QueuedEvent)
    (hd : destOf config e = some ep) :
    ∀ gs, GroupsWF config gs → GroupsWF config (addToGroups gs ep e) := by
  intro gs
  induction gs with
  | nil =>
    intro _
    refine ⟨by simp [addToGroups], ?_⟩
    intro g hg x hx
    simp only [addToGroups, List.mem_singleton] at hg
    subst hg
    simp only [List.mem_singleton] at hx
    subst hx
    exact hd
  | cons g rest ih =>
    rintro ⟨hnd, hmem⟩
    obtain ⟨k, es⟩ := g
    simp only [List.map_cons, List.nodup_cons] at hnd
    obtain ⟨hknot, hndrest⟩ := hnd
    by_cases hk : k = ep
    · subst hk
      have hkeys : (addToGroups ((k, es) :: rest) k e).map Prod.fst =
          k :: rest.map Prod.fst := by
        simp [addToGroups]
      refine ⟨by rw [hkeys]; exact List.nodup_cons.mpr ⟨hknot, hndrest⟩, ?_⟩
      intro g' hg' x hx
      simp only [addToGroups, ite_true, List.mem_cons] at hg'
      rcases hg' with hg1 | hg2
      · subst hg1
        simp only [List.mem_append, List.mem_singleton] at hx
        rcases hx with hx1 | hx2
        · exact hmem (k, es) (List.mem_cons_self _ _) x hx1
        · subst hx2
          exact hd
      · exact hmem g' (List.mem_cons_of_mem _ hg2) x hx
    · have hWFrest : GroupsWF config rest :=
        ⟨hndrest, fun g' hg' => hmem g' (List.mem_cons_of_mem _ hg')⟩
      obtain ⟨hnd2, hmem2⟩ := ih hWFrest
      constructor
      · simp only [addToGroups, if_neg hk, List.map_cons, List.nodup_cons]
        refine ⟨?_, hnd2⟩
        rw [keys_addToGroups]
        split
        · exact hknot
        · simp only [List.mem_append, List.mem_singleton]
          rintro (hc | hc)
          · exact hknot hc
          · exact hk hc
      · intro g' hg' x hx
        simp only [addToGroups, if_neg hk, List.mem_cons] at hg'
        rcases hg' with hg1 | hg2
        · subst hg1
          exact hmem (k, es) (List.mem_cons_self _ _) x hx
        · exact hmem2 g' hg2 x hx

theorem groupsWF_groupEventsFrom (config : BrainzLabConfig) :
    ∀ (events : List QueuedEvent) (gs : List (String × List QueuedEvent)),
      GroupsWF config gs → GroupsWF config (groupEventsFrom config gs events) := by
  intro events
  induction events with
  | nil =>
    intro gs h
    exact h
  | cons e rest ih =>
    intro gs h
    cases hd : destOf config e with
    | none =>
      simp only [groupEventsFrom, hd]
      exact ih _ h
    | some ep =>
      simp only [groupEventsFrom, hd]
      exact ih _ (groupsWF_addToGroups config ep e hd gs h)

theorem groupsWF_groupEvents (config : BrainzLabConfig) (queue : List QueuedEvent) :
    GroupsWF config (groupEvents config queue) :=
  groupsWF_groupEventsFrom config queue [] ⟨List.nodup_nil, by simp⟩

theorem mem_failedEventsOf (fails : String → Bool) :
    ∀ (gs : List (String × List QueuedEvent)) (e : QueuedEvent),
      e ∈ failedEventsOf fails gs → ∃ g ∈ gs, fails g.1 = true ∧ e ∈ g.2 := by
  intro gs
  induction gs with
  | nil =>
    intro e he
    simp [failedEventsOf] at he
  | cons g rest ih =>
    intro e he
    by_cases hf : fails g.1 = true
    · rw [failedEventsOf, if_pos hf] at he
      rcases List.mem_append.mp he with h1 | h2
      · exact ⟨g, List.mem_cons_self _ _, hf, h1⟩
      · obtain ⟨g', hg', hf', he'⟩ := ih e h2
        exact ⟨g', List.mem_cons_of_mem _ hg', hf', he'⟩
    · rw [failedEventsOf, if_neg hf] at he
      obtain ⟨g', hg', hf', he'⟩ := ih e he
      exact ⟨g', List.mem_cons_of_mem _ hg', hf', he'⟩

theorem filter_failedEventsOf (config : BrainzLabConfig) (fails : String → Bool) :
    ∀ (gs : List (String × List QueuedEvent)),
      GroupsWF config gs → ∀ ep, fails ep = true →
        (failedEventsOf fails gs).filter (fun e => decide (destOf config e = some ep)) =
          lookupGroup gs ep := by
  intro gs
  induction gs with
  | nil =>
    intro _ ep _
    simp [failedEventsOf, lookupGroup]
  | cons g rest ih =>
    rintro ⟨hnd, hmem⟩ ep hep
    obtain ⟨k, es⟩ := g
    simp only [List.map_cons, List.nodup_cons] at hnd
    obtain ⟨hknot, hndrest⟩ := hnd
    have hWFrest : GroupsWF config rest :=
      ⟨hndrest, fun g' hg' => hmem g' (List.mem_cons_of_mem _ hg')⟩
    by_cases hk : k = ep
    · subst hk
      rw [failedEventsOf, if_pos hep, List.filter_append]
      have h1 : es.filter (fun e => decide (destOf config e = some k)) = es := by
        rw [List.filter_eq_self]
        intro e he
        simp [hmem (k, es) (List.mem_cons_self _ _) e he]
      have h2 : (failedEventsOf fails rest).filter
          (fun e => decide (destOf config e = some k)) = [] := by
        rw [List.filter_eq_nil_iff]
        intro e he
        obtain ⟨g', hg', -, he'⟩ := mem_failedEventsOf fails rest e he
        have hde := hWFrest.2 g' hg' e he'
        have hne : g'.1 ≠ k := by
          intro hc
          exact hknot (hc ▸ List.mem_map_of_mem Prod.fst hg')
        simp [hde, hne]
      rw [h1, h2, List.append_nil]
      simp [lookupGroup]
    · have hlk : lookupGroup ((k, es) :: rest) ep = lookupGroup rest ep := by
        simp [lookupGroup, hk]
      rw [hlk]
      by_cases hf : fails k = true
      · rw [failedEventsOf, if_pos hf, List.filter_append]
        have h1 : es.filter (fun e => decide (destOf config e = some ep)) = [] := by
          rw [List.filter_eq_nil_iff]
          intro e he
          have hde := hmem (k, es) (List.mem_cons_self _ _) e he
          simp [hde, hk]
        rw [h1, List.nil_append]
        exact ih hWFrest ep hep
      · rw [failedEventsOf, if_neg hf]
        exact ih hWFrest ep hep

/-- C1 counterexample: with error events routed to https://a, console to
https://b and custom to https://c, and only https://c delivering, the
flush of the buffer e1(error), e2(console), e3(error), e4(custom)
requeues e1, e3, e2 — the failed groups concatenated — and not the
original relative submission order e1, e2, e3 that the claim asserts. -/
theorem flush_requeue_order_counterexample :
    Transport.flushQueue cfgX failsX
        [mkEvt "1" EventType.error, mkEvt "2" EventType.console,
         mkEvt "3" EventType.error, mkEvt "4" EventType.custom] [] =
      [mkEvt "1" EventType.error, mkEvt "3" EventType.error,
       mkEvt "2" EventType.console] ∧
    [mkEvt "1" EventType.error, mkEvt "3" EventType.error,
       mkEvt "2" EventType.console] ≠
      [mkEvt "1" EventType.error, mkEvt "2" EventType.console,
       mkEvt "3" EventType.error] := by
  decide

/-- C1 (amended): after a flush, the live buffer is exactly the events of
the failed destination groups followed by the events submitted while the
flush was in flight; per failed endpoint the requeued events are exactly
that endpoint's events of the snapshot in their original relative order,
events of successful groups are removed, and every requeued event belongs
to some failed group.  The failed groups are concatenated in group order
(order of each group's first event), so with a single failed group — the
spec's two-destination scenario — the original relative submission order
is preserved, but events of distinct failed groups are not interleaved
back into global submission order. -/
theorem flush_partial_failure :
    ∀ (config : BrainzLabConfig) (fails : String → Bool)
      (queue concurrent : List QueuedEvent),
      Transport.flushQueue config fails queue concurrent =
          failedEventsOf fails (groupEvents config queue) ++ concurrent
      ∧ (∀ ep, fails ep = true →
          (failedEventsOf fails (groupEvents config queue)).filter
              (fun e => decide (destOf config e = some ep)) =
            queue.filter (fun e => decide (destOf config e = some ep)))
      ∧ (∀ ep, fails ep = false →
          (failedEventsOf fails (groupEvents config queue)).filter
              (fun e => decide (destOf config e = some ep)) = [])
      ∧ ∀ e ∈ failedEventsOf fails (groupEvents config queue),
          ∃ ep, destOf config e = some ep ∧ fails ep = true := by
  intro config fails queue concurrent
  have hWF : GroupsWF config (groupEvents config queue) := groupsWF_groupEvents config queue
  refine ⟨rfl, ?_, ?_, ?_⟩
  · intro ep hep
    rw [filter_failedEventsOf config fails _ hWF ep hep, groupEvents,
      lookupGroup_groupEventsFrom]
    simp [lookupGroup]
  · intro ep hep
    rw [List.filter_eq_nil_iff]
    intro e he
    obtain ⟨g, hg, hfg, heg⟩ := mem_failedEventsOf fails _ e he
    have hde := hWF.2 g hg e heg
    have hne : g.1 ≠ ep := by
      intro hc
      rw [hc, hep] at hfg
      exact Bool.false_ne_true hfg
    simp [hde, hne]
  · intro e he
    obtain ⟨g, hg, hfg, heg⟩ := mem_failedEventsOf fails _ e he
    exact ⟨g.1, hWF.2 g hg e heg, hfg⟩

/-- Witness for C1 (amended): in the concrete partial-failure run, the
requeued events of the failed endpoint https://a are exactly the snapshot's
error events in order. -/
theorem flush_partial_failure_witness :
    (failedEventsOf failsX (groupEvents cfgX
        [mkEvt "1" EventType.error, mkEvt "2" EventType.console,
         mkEvt "3" EventType.error, mkEvt "4" EventType.custom])).filter
        (fun e => decide (destOf cfgX e = some "https://a")) =
      [mkEvt "1" EventType.error, mkEvt "2" EventType.console,
       mkEvt "3" EventType.error, mkEvt "4" EventType.custom].filter
        (fun e => decide (destOf cfgX e = some "https://a")) :=
  (flush_partial_failure cfgX failsX
      [mkEvt "1" EventType.error, mkEvt "2" EventType.console,
       mkEvt "3" EventType.error, mkEvt "4" EventType.custom] []).2.1
    "https://a" (by decide)

end BrainzLab
